import Mathlib

/-!
Shallow embedding of the eBay OAuth token lifecycle of the PartStint
frontend: `src/pages/Home.jsx` (the message handler for the OAuth popup,
the mount-time token check, the listings fetcher with refresh-on-expiry,
and the hard-reset handler) and `src/utils/getValidAuthToken.js`.

Conventions of the embedding:
- `Date.now()` is passed explicitly as `now : Int` (epoch millis).
- localStorage is the `Storage` record; each field is one key, `none`
  meaning the key is absent.
- A string stored under the key `ebay_user_token` is classified by the
  outcome of `JSON.parse` plus the destructuring `{ value, expiry }`
  performed in getValidAuthToken.js line 18: `JsStr.recordJson v e` stands
  for exactly the strings `JSON.stringify({value: v, expiry: e})` with `e`
  a number, `JsStr.recordNoNum v` for a record text whose expiry field is
  not a number (e.g. `null`, produced when NaN is stringified), and
  `JsStr.plain s` for every other string (bare token strings, bad JSON,
  JSON of the wrong shape) on which the parse-and-check fails.
- Network calls are resolved oracles passed as arguments: each carries
  either the value the promise resolved with or the fact that it threw
  (together with the status fields the catch blocks inspect).
- JavaScript truthiness of a string is `s ≠ ""`; truthiness of an optional
  field is `isSome` combined with the non-empty check where the code tests
  a string.
- All embedded operations are total Lean functions: an exception that the
  source catches internally is a branch, and no exception escapes.
-/

/-- Classification of a string value stored under `ebay_user_token`,
by how `JSON.parse` plus the `{value, expiry}` destructuring treats it. -/
inductive JsStr where
  | recordJson : String → Int → JsStr
  | recordNoNum : String → JsStr
  | plain : String → JsStr
deriving DecidableEq

/-- The localStorage keys the component touches (Home.jsx lines 44, 49, 58,
80, 90, 129, 140-141, 157-158, 187-191; getValidAuthToken.js lines 15, 49). -/
structure Storage where
  ebay_user_token : Option JsStr
  ebay_refresh_token : Option String
  userId : Option String
  user_id : Option String
  user_store : Option String
deriving DecidableEq

/-- The React state of the Home component (Home.jsx lines 20-23) together
with the storage it mutates. -/
structure HomeState where
  ebayToken : Option JsStr
  needsConnection : Bool
  loadingListings : Bool
  listingsError : Option String
  storage : Storage
deriving DecidableEq

/-- Shape of `resp.data` from `apiService.auth.getEbayUserToken`
(getValidAuthToken.js lines 43-47). `access_token = some t` means the field
is present and is a string (the code checks `typeof === 'string'`);
`expires_in_seconds = none` means the field is absent, in which case the
arithmetic `Date.now() + undefined * 1000` is NaN and the stringified
expiry is not a number. -/
structure TokenStatusData where
  access_token : Option String
  expires_in_seconds : Option Int
deriving DecidableEq

/-- Shape of the response from `apiService.auth.getEbayUserToken`. -/
structure TokenStatusResp where
  success : Bool
  data : Option TokenStatusData
deriving DecidableEq

/-- Resolved outcome of the `apiService.auth.getEbayUserToken(userId)` call:
either the await threw (getValidAuthToken.js line 34), or it resolved to a
value (`returns none` is resolution to null/undefined, rejected by the
`resp &&` guard on line 41). -/
inductive RemoteCall where
  | throws : RemoteCall
  | returns : Option TokenStatusResp → RemoteCall
deriving DecidableEq

/-- Result of one run of getValidAuthToken: the returned value (`none` is
the JS `null`), the `ebay_user_token` storage cell afterwards, and whether
the remote endpoint was called. -/
structure GVATResult where
  ret : Option String
  store : Option JsStr
  networkCalled : Bool
deriving DecidableEq

/-- Steps 2 and 3 of getValidAuthToken.js (lines 31-61): call the backend,
and on `resp && resp.success && resp.data && typeof access_token ===
'string'` store a fresh record and return the token, else return null. -/
def getValidAuthTokenRemote (cell : Option JsStr) (now : Int)
    (remote : RemoteCall) : GVATResult :=
  match remote with
  | .throws => ⟨none, cell, true⟩
  | .returns none => ⟨none, cell, true⟩
  | .returns (some resp) =>
    if resp.success then
      match resp.data with
      | some d =>
        match d.access_token with
        | some tok =>
          match d.expires_in_seconds with
          | some s => ⟨some tok, some (JsStr.recordJson tok (now + s * 1000)), true⟩
          | none => ⟨some tok, some (JsStr.recordNoNum tok), true⟩
        | none => ⟨none, cell, true⟩
      | none => ⟨none, cell, true⟩
    else ⟨none, cell, true⟩

/-- getValidAuthToken.js lines 13-62. Step 1 (lines 15-27): if the stored
string parses to `{value, expiry}` with `typeof expiry === 'number' &&
Date.now() < expiry && value`, return the value with no network call; on
parse failure or an invalid record fall through to the remote call. -/
def getValidAuthToken (cell : Option JsStr) (now : Int)
    (remote : RemoteCall) : GVATResult :=
  match cell with
  | some (JsStr.recordJson v e) =>
    if now < e ∧ v ≠ "" then ⟨some v, cell, false⟩
    else getValidAuthTokenRemote cell now remote
  | _ => getValidAuthTokenRemote cell now remote

/-- The cell-validity test of getValidAuthToken.js line 19, as a Boolean
predicate on the stored cell: present, record-shaped, numeric expiry,
`now < expiry`, non-empty value. -/
def localRecordValid (cell : Option JsStr) (now : Int) : Bool :=
  match cell with
  | some (JsStr.recordJson v e) => decide (now < e) && decide (v ≠ "")
  | _ => false

/-- Whether the remote call outcome passes the guard of
getValidAuthToken.js lines 40-45 and yields a token. -/
def remoteYields (remote : RemoteCall) : Bool :=
  match remote with
  | .throws => false
  | .returns none => false
  | .returns (some resp) =>
    resp.success &&
      (match resp.data with
       | some d => d.access_token.isSome
       | none => false)

/-- JavaScript truthiness of the stored string a `JsStr` stands for: the
two record forms are JSON texts, hence non-empty and always truthy; a
plain string is truthy exactly when non-empty. -/
def jsStrTruthy : JsStr → Bool
  | JsStr.recordJson _ _ => true
  | JsStr.recordNoNum _ => true
  | JsStr.plain s => s != ""

/-- JavaScript truthiness of a nullable string variable holding a `JsStr`
(a `localStorage.getItem` result or the `ebayToken` state): null and the
empty string are falsy. -/
def optTruthy : Option JsStr → Bool
  | some js => jsStrTruthy js
  | none => false

/-- Payload of a cross-window message event as the handler reads it
(Home.jsx lines 31-34): the origin and the `code` field of `event.data`
(`state` and the message-level `expires_in` are destructured but unused). -/
structure MsgEvent where
  origin : String
  code : Option String
deriving DecidableEq

/-- Shape of `resp.data` from `apiService.auth.exchangeCode`
(Home.jsx lines 46-58). -/
structure ExchangeData where
  access_token : String
  refresh_token : Option String
  expires_in : Option Int
deriving DecidableEq

/-- Resolved outcome of the `apiService.auth.exchangeCode` call: it threw,
or resolved to `{success, data}` (Home.jsx lines 38-43). -/
inductive ExchangeOutcome where
  | throws : ExchangeOutcome
  | returns : Bool → Option ExchangeData → ExchangeOutcome
deriving DecidableEq

/-- JavaScript `x || 7200` on an optional number (Home.jsx lines 46, 128):
an absent field and 0 are falsy and give the 7200-second fallback. -/
def orElse7200 (o : Option Int) : Int :=
  match o with
  | some n => if n = 0 then 7200 else n
  | none => 7200

/-- The OAuth popup message handler, Home.jsx lines 31-67. Rejects
foreign-origin events first (line 32); on a truthy `code` and `user?.id`,
runs the exchange; a thrown call or `success:false` is caught with no
state change; on success it stores `userId`, then the full token record
(expiry defaulting to 7200 s), then the refresh token when truthy, and
sets `ebayToken` and `needsConnection:false`. When `resp.data` is absent
the property read on line 46 throws after `userId` was already stored. -/
def handleMessage (pageOrigin : String) (user : Option String)
    (ev : MsgEvent) (ex : ExchangeOutcome) (now : Int)
    (st : HomeState) : HomeState :=
  if ev.origin ≠ pageOrigin then st
  else
    match ev.code, user with
    | some c, some uid =>
      if c ≠ "" ∧ uid ≠ "" then
        match ex with
        | .throws => st
        | .returns succ data =>
          if succ then
            let st1 := { st with storage := { st.storage with userId := some uid } }
            match data with
            | none => st1
            | some d =>
              let expiresAt := now + orElse7200 d.expires_in * 1000
              let st2 := { st1 with storage :=
                { st1.storage with
                  ebay_user_token := some (JsStr.recordJson d.access_token expiresAt) } }
              let st3 :=
                match d.refresh_token with
                | some rt =>
                  if rt ≠ "" then
                    { st2 with storage := { st2.storage with ebay_refresh_token := some rt } }
                  else st2
                | none => st2
              { st3 with ebayToken := some (JsStr.plain d.access_token),
                         needsConnection := false }
          else st
      else st
    | _, _ => st

/-- The mount-time token check, Home.jsx lines 76-103. When a truthy
local value exists under `ebay_user_token` (line 81, `if (localToken)`,
so a stored empty string counts as absent) it is used as-is:
`setEbayToken(localToken)` with the raw stored string and
`needsConnection:false` (lines 82-83). Then getValidAuthToken runs against
the same storage; a truthy returned token (line 89, `if (token)`) is
stored back as the bare string (line 90, `setItem` of the token itself,
not of a record) and becomes `ebayToken`; otherwise (null or an empty
returned token) `needsConnection:true` is set only when the local value
was falsy (line 93, `else if (!localToken)`). -/
def checkToken (user : Option String) (now : Int) (remote : RemoteCall)
    (st : HomeState) : HomeState :=
  match user with
  | none => st
  | some uid =>
    if uid = "" then st
    else
      let localToken := st.storage.ebay_user_token
      let st1 :=
        if optTruthy localToken then
          { st with ebayToken := localToken, needsConnection := false }
        else st
      let g := getValidAuthToken st1.storage.ebay_user_token now remote
      let st2 := { st1 with storage := { st1.storage with ebay_user_token := g.store } }
      match g.ret with
      | some t =>
        if t ≠ "" then
          { st2 with
            storage := { st2.storage with ebay_user_token := some (JsStr.plain t) },
            ebayToken := some (JsStr.plain t),
            needsConnection := false }
        else if optTruthy localToken then st2
        else { st2 with needsConnection := true }
      | none =>
        if optTruthy localToken then st2
        else { st2 with needsConnection := true }

/-- One entry of the `errors` array of a listings response. -/
structure ErrEntry where
  errorId : Option Int
deriving DecidableEq

/-- Logical response of `apiService.inventory.getActiveListings`
(Home.jsx lines 119-147). -/
structure ListingsResp where
  success : Bool
  errors : Option (List ErrEntry)
  error : Option String
deriving DecidableEq

/-- Resolved outcome of the listings call: thrown (with the
`err.response?.status` and `err.status` fields and `err.message` the catch
block reads) or resolved. -/
inductive FetchOutcome where
  | throws : Option Int → Option Int → String → FetchOutcome
  | returns : ListingsResp → FetchOutcome
deriving DecidableEq

/-- Shape of `refreshed.data` from `apiService.auth.refreshEbayUserToken`
(Home.jsx lines 127-133). `access_token = none` covers an absent field. -/
structure RefreshData where
  access_token : Option String
  expires_in : Option Int
deriving DecidableEq

/-- Shape of the refresh response (Home.jsx line 127). -/
structure RefreshResp where
  success : Bool
  data : Option RefreshData
deriving DecidableEq

/-- Resolved outcome of the refresh call: thrown (caught by the outer
catch of fetchListings) or resolved, possibly to null/undefined
(the `refreshed?.` guard). -/
inductive RefreshOutcome where
  | throws : Option Int → Option Int → String → RefreshOutcome
  | returns : Option RefreshResp → RefreshOutcome
deriving DecidableEq

/-- The `data.errors?.[0]?.errorId === 932` test of Home.jsx line 122. -/
def firstErrorIs932 (r : ListingsResp) : Bool :=
  match r.errors with
  | some (e :: _) => e.errorId == some 932
  | _ => false

/-- The `refreshed?.success && refreshed.data?.access_token` truthiness
guard of Home.jsx line 127, returning the new token when it passes. -/
def refreshedToken (rr : Option RefreshResp) : Option String :=
  match rr with
  | some r =>
    if r.success then
      match r.data with
      | some d =>
        match d.access_token with
        | some t => if t ≠ "" then some t else none
        | none => none
      | none => none
    else none
  | none => none

/-- Removal of both token keys (Home.jsx lines 140-141 and 157-158). -/
def clearTokens (s : Storage) : Storage :=
  { s with ebay_user_token := none, ebay_refresh_token := none }

/-- The `err.response?.status === 401 || err.status === 401` test of
Home.jsx line 153. -/
def is401 (respStatus errStatus : Option Int) : Bool :=
  respStatus == some 401 || errStatus == some 401

/-- JavaScript `s || d` on an optional string: absent and empty are falsy. -/
def strOrDefault (o : Option String) (d : String) : String :=
  match o with
  | some s => if s = "" then d else s
  | none => d

/-- The catch block of fetchListings, Home.jsx lines 150-164: a 401 clears
both token keys, drops `ebayToken`, sets `needsConnection:true` and clears
the error message; any other thrown error surfaces `err.message` (or the
generic text). -/
def fetchCatch (respStatus errStatus : Option Int) (msg : String)
    (st : HomeState) : HomeState :=
  if is401 respStatus errStatus then
    { st with storage := clearTokens st.storage, ebayToken := none,
              needsConnection := true, listingsError := none }
  else
    { st with listingsError := some (if msg = "" then "Error loading listings." else msg) }

/-- One run of fetchListings, Home.jsx lines 114-168, given the resolved
outcomes of the listings call and (when reached) the refresh call. Entry
sets loading and clears the error (lines 115-116); the error-code-932 path
refreshes and either stores a full new record and updates `ebayToken`
(returning so the effect re-runs, line 137) or tears down the token state;
other logical failures surface `data.error`; the catch block handles
thrown errors; the finally clause drops the loading flag (line 166). -/
def fetchListings (fetch : FetchOutcome) (refresh : RefreshOutcome)
    (now : Int) (st : HomeState) : HomeState :=
  let st0 := { st with loadingListings := true, listingsError := none }
  let st1 :=
    match fetch with
    | .returns r =>
      if r.success then st0
      else if firstErrorIs932 r then
        match refresh with
        | .throws rs es msg => fetchCatch rs es msg st0
        | .returns rr =>
          match refreshedToken rr with
          | some tok =>
            let expires := orElse7200 ((rr.bind (·.data)).bind (·.expires_in))
            { st0 with
              storage := { st0.storage with
                ebay_user_token := some (JsStr.recordJson tok (now + expires * 1000)) },
              ebayToken := some (JsStr.plain tok) }
          | none =>
            { st0 with storage := clearTokens st0.storage, ebayToken := none,
                       needsConnection := true }
      else
        { st0 with listingsError := some (strOrDefault r.error "Failed to load listings.") }
    | .throws rs es msg => fetchCatch rs es msg st0
  { st1 with loadingListings := false }

/-- Driver for the effect of Home.jsx lines 109-171: the effect body runs
whenever `ebayToken` changes; it returns at once when `ebayToken` is
falsy — null or the empty string (line 110, `if (!ebayToken) return`) —
otherwise it invokes fetchListings once, and React re-runs the effect
only when the resulting `ebayToken` differs from the one the run started
with (fetchListings never calls itself). Each invocation consumes the
next pair of resolved call outcomes; the returned list records the
`ebayToken` value attached to each listings request. -/
def runFetchLoop (outs : List (FetchOutcome × RefreshOutcome)) (now : Int)
    (st : HomeState) : HomeState × List JsStr :=
  match outs with
  | [] => (st, [])
  | (f, r) :: rest =>
    match st.ebayToken with
    | none => (st, [])
    | some tok =>
      if jsStrTruthy tok then
        let st1 := fetchListings f r now st
        if st1.ebayToken = st.ebayToken then (st1, [tok])
        else
          let res := runFetchLoop rest now st1
          (res.1, tok :: res.2)
      else (st, [])

/-- Result of the hard-reset handler: the storage afterwards and whether
`window.location.reload` was invoked. -/
structure AuthFailResult where
  storage : Storage
  reloaded : Bool
deriving DecidableEq

/-- The `authenticationFailed` handler, Home.jsx lines 181-195: removes the
five keys in order, then forces a reload. -/
def handleAuthFailure (s : Storage) : AuthFailResult :=
  let s1 := { s with user_store := none }
  let s2 := { s1 with ebay_user_token := none }
  let s3 := { s2 with ebay_refresh_token := none }
  let s4 := { s3 with userId := none }
  let s5 := { s4 with user_id := none }
  ⟨s5, true⟩

/-- Helper: the remote phase of getValidAuthToken always performs the
network call, whatever its outcome. -/
theorem getValidAuthTokenRemote_calls (cell : Option JsStr) (now : Int)
    (remote : RemoteCall) :
    (getValidAuthTokenRemote cell now remote).networkCalled = true := by
  unfold getValidAuthTokenRemote
  rcases remote with _ | (_ | resp)
  · rfl
  · rfl
  · dsimp only
    split
    · rcases resp.data with _ | d
      · rfl
      · dsimp only
        rcases d.access_token with _ | tok
        · rfl
        · dsimp only
          rcases d.expires_in_seconds with _ | s <;> rfl
    · rfl

/-- Helper: when the remote outcome does not pass the success guard, the
remote phase returns null and leaves the stored cell unchanged. -/
theorem getValidAuthTokenRemote_failure (cell : Option JsStr) (now : Int)
    (remote : RemoteCall) (h : remoteYields remote = false) :
    (getValidAuthTokenRemote cell now remote).ret = none ∧
    (getValidAuthTokenRemote cell now remote).store = cell := by
  rcases remote with _ | (_ | resp)
  · exact ⟨rfl, rfl⟩
  · exact ⟨rfl, rfl⟩
  · obtain ⟨succ, data⟩ := resp
    cases succ
    · exact ⟨rfl, rfl⟩
    · rcases data with _ | d
      · exact ⟨rfl, rfl⟩
      · rcases hat : d.access_token with _ | tok
        · constructor <;> simp [getValidAuthTokenRemote, hat]
        · exfalso
          simp [remoteYields, hat] at h

/-- C6: with a stored record whose value is non-empty and whose expiry is
strictly in the future, getValidAuthToken returns the stored value at once
with no network call and leaves the record unchanged; hence a second call
under the same unexpired record (at any time still before the expiry)
again returns the same value with no network call. -/
theorem getValidAuthToken_unexpired_idempotent (v : String) (e now now2 : Int)
    (r r2 : RemoteCall) (hv : v ≠ "") (h1 : now < e) (h2 : now2 < e) :
    getValidAuthToken (some (JsStr.recordJson v e)) now r
      = ⟨some v, some (JsStr.recordJson v e), false⟩ ∧
    getValidAuthToken (some (JsStr.recordJson v e)) now2 r2
      = ⟨some v, some (JsStr.recordJson v e), false⟩ := by
  constructor <;> simp [getValidAuthToken, h1, h2, hv]

/-- Witness for C6 at the concrete record of Scenario A. -/
theorem getValidAuthToken_unexpired_idempotent_witness :
    ("abc" : String) ≠ "" ∧ (0 : Int) < 1000000 ∧ (5 : Int) < 1000000 ∧
    (getValidAuthToken (some (JsStr.recordJson "abc" 1000000)) 0 RemoteCall.throws
      = ⟨some "abc", some (JsStr.recordJson "abc" 1000000), false⟩ ∧
     getValidAuthToken (some (JsStr.recordJson "abc" 1000000)) 5 RemoteCall.throws
      = ⟨some "abc", some (JsStr.recordJson "abc" 1000000), false⟩) :=
  ⟨by decide, by decide, by decide,
   getValidAuthToken_unexpired_idempotent "abc" 1000000 0 5
     RemoteCall.throws RemoteCall.throws (by decide) (by decide) (by decide)⟩

/-- C7: the validity test compares the current time strictly against the
stored expiry: a record expiring one millisecond ago falls through to the
remote call, while a record expiring one millisecond from now is returned
directly with no network call. -/
theorem getValidAuthToken_expiry_strict (v : String) (now : Int)
    (r r2 : RemoteCall) (hv : v ≠ "") :
    (getValidAuthToken (some (JsStr.recordJson v (now - 1))) now r).networkCalled = true ∧
    getValidAuthToken (some (JsStr.recordJson v (now + 1))) now r2
      = ⟨some v, some (JsStr.recordJson v (now + 1)), false⟩ := by
  constructor
  · have h : ¬(now < now - 1 ∧ v ≠ "") := by
      rintro ⟨h1, -⟩
      omega
    simp only [getValidAuthToken, if_neg h]
    exact getValidAuthTokenRemote_calls _ _ _
  · have h2 : now < now + 1 := by omega
    simp [getValidAuthToken, h2, hv]

/-- Witness for C7 at a concrete time and token value. -/
theorem getValidAuthToken_expiry_strict_witness :
    ("abc" : String) ≠ "" ∧
    ((getValidAuthToken (some (JsStr.recordJson "abc" 99)) 100 RemoteCall.throws).networkCalled = true ∧
     getValidAuthToken (some (JsStr.recordJson "abc" 101)) 100 RemoteCall.throws
      = ⟨some "abc", some (JsStr.recordJson "abc" 101), false⟩) :=
  ⟨by decide,
   getValidAuthToken_expiry_strict "abc" 100 RemoteCall.throws RemoteCall.throws (by decide)⟩

/-- C8: whenever the stored cell holds no valid record (absent, malformed,
empty value or expired) and the remote call fails in any of the coded ways
(thrown error, null response, unsuccessful response, missing data or
missing access token), getValidAuthToken returns null; being a total Lean
function it propagates no exception to the caller. -/
theorem getValidAuthToken_failure_null (cell : Option JsStr) (now : Int)
    (remote : RemoteCall)
    (h1 : localRecordValid cell now = false)
    (h2 : remoteYields remote = false) :
    (getValidAuthToken cell now remote).ret = none := by
  have hrem := (getValidAuthTokenRemote_failure cell now remote h2).1
  cases cell with
  | none => exact hrem
  | some js =>
    cases js with
    | recordJson v e =>
      have h : ¬(now < e ∧ v ≠ "") := by
        rintro ⟨a, b⟩
        simp [localRecordValid, a, b] at h1
      simp only [getValidAuthToken, if_neg h]
      exact hrem
    | recordNoNum v => exact hrem
    | plain s => exact hrem

/-- Witness for C8: a malformed stored string together with a thrown
remote call yields null. -/
theorem getValidAuthToken_failure_null_witness :
    localRecordValid (some (JsStr.plain "not json")) 0 = false ∧
    remoteYields RemoteCall.throws = false ∧
    (getValidAuthToken (some (JsStr.plain "not json")) 0 RemoteCall.throws).ret = none :=
  ⟨by decide, by decide,
   getValidAuthToken_failure_null (some (JsStr.plain "not json")) 0
     RemoteCall.throws (by decide) (by decide)⟩

/-- C5: a cross-window message whose origin differs from the hosting page
origin is rejected before anything else runs: the handler returns the
state unchanged, so no storage write and no change to `ebayToken` or
`needsConnection` occurs. -/
theorem handleMessage_foreign_origin_noop (pageOrigin : String)
    (user : Option String) (ev : MsgEvent) (ex : ExchangeOutcome)
    (now : Int) (st : HomeState) (h : ev.origin ≠ pageOrigin) :
    handleMessage pageOrigin user ev ex now st = st := by
  unfold handleMessage
  rw [if_pos h]

/-- Witness for C5: a foreign-origin message carrying a code and a
successful exchange oracle still leaves a concrete state untouched. -/
theorem handleMessage_foreign_origin_noop_witness :
    (("https://evil.example" : String) ≠ "https://app.example") ∧
    handleMessage "https://app.example" (some "u1")
      ⟨"https://evil.example", some "code1"⟩
      (ExchangeOutcome.returns true (some ⟨"tok", some "rt", some 3600⟩)) 0
      ⟨none, false, false, none, ⟨none, none, none, none, none⟩⟩
      = ⟨none, false, false, none, ⟨none, none, none, none, none⟩⟩ :=
  ⟨by decide,
   handleMessage_foreign_origin_noop "https://app.example" (some "u1")
     ⟨"https://evil.example", some "code1"⟩
     (ExchangeOutcome.returns true (some ⟨"tok", some "rt", some 3600⟩)) 0
     ⟨none, false, false, none, ⟨none, none, none, none, none⟩⟩ (by decide)⟩

/-- C9: the `authenticationFailed` handler removes all five persistence
keys, whatever the prior storage contents, and then forces the reload. -/
theorem handleAuthFailure_clears_all_keys (s : Storage) :
    (handleAuthFailure s).storage = ⟨none, none, none, none, none⟩ ∧
    (handleAuthFailure s).reloaded = true :=
  ⟨rfl, rfl⟩

/-- C10 (counterexample to the claim as stated): with the empty string
stored under `ebay_user_token` and a failing backend validation, the
truthiness tests `if (localToken)` and `else if (!localToken)` of
Home.jsx lines 81 and 93 treat the stored value as absent: `ebayToken` is
never set and `needsConnection` ends true, although a string is stored —
so a stored value does not always suppress the connect prompt. -/
theorem checkToken_empty_string_prompts :
    (checkToken (some "u1") 0 RemoteCall.throws
      ⟨none, false, false, none,
        ⟨some (JsStr.plain ""), none, none, none, none⟩⟩).needsConnection = true ∧
    (checkToken (some "u1") 0 RemoteCall.throws
      ⟨none, false, false, none,
        ⟨some (JsStr.plain ""), none, none, none, none⟩⟩).ebayToken = none := by
  decide

/-- C10 (amended): whenever a truthy — that is, non-empty — string is
stored under `ebay_user_token`, even an expired or malformed one,
checkToken sets `ebayToken` to that raw stored string and
`needsConnection` to false, and when the backend validation then yields
no token the final state still has that `ebayToken` and `needsConnection`
remains false: the connect prompt is never raised by this path while a
truthy local value exists. -/
theorem checkToken_local_value_wins (uid : String) (lt : JsStr) (now : Int)
    (remote : RemoteCall) (st : HomeState)
    (hu : uid ≠ "")
    (hl : st.storage.ebay_user_token = some lt)
    (ht : jsStrTruthy lt = true)
    (hg : (getValidAuthToken (some lt) now remote).ret = none) :
    (checkToken (some uid) now remote st).ebayToken = some lt ∧
    (checkToken (some uid) now remote st).needsConnection = false := by
  constructor <;> simp [checkToken, optTruthy, hu, hl, ht, hg]

/-- Witness for C10: a malformed (but non-empty) local value and a thrown
validation call still leave the token set and the connect prompt hidden. -/
theorem checkToken_local_value_wins_witness :
    (("u1" : String) ≠ "") ∧
    ((⟨none, false, false, none,
        ⟨some (JsStr.plain "junk"), none, none, none, none⟩⟩ : HomeState).storage.ebay_user_token
      = some (JsStr.plain "junk")) ∧
    (jsStrTruthy (JsStr.plain "junk") = true) ∧
    ((getValidAuthToken (some (JsStr.plain "junk")) 0 RemoteCall.throws).ret = none) ∧
    ((checkToken (some "u1") 0 RemoteCall.throws
        ⟨none, false, false, none,
          ⟨some (JsStr.plain "junk"), none, none, none, none⟩⟩).ebayToken
        = some (JsStr.plain "junk") ∧
     (checkToken (some "u1") 0 RemoteCall.throws
        ⟨none, false, false, none,
          ⟨some (JsStr.plain "junk"), none, none, none, none⟩⟩).needsConnection = false) :=
  ⟨by decide, by decide, by decide, by decide,
   checkToken_local_value_wins "u1" (JsStr.plain "junk") 0 RemoteCall.throws
     ⟨none, false, false, none,
       ⟨some (JsStr.plain "junk"), none, none, none, none⟩⟩
     (by decide) (by decide) (by decide) (by decide)⟩

/-- C1 (code-bug exhibit): when validation succeeds on mount, checkToken
persists the bare token string under `ebay_user_token` (Home.jsx line 90,
`localStorage.setItem('ebay_user_token', token)`), not the
`{value, expiry}` record that getValidAuthToken had just written on its
own lines 49-55: with an empty store and a backend answering
`{success:true, data:{access_token:"abc", expires_in_seconds:3600}}`, the
cell afterwards holds the plain string `"abc"`, which the next
getValidAuthToken run cannot parse as a record. -/
theorem checkToken_persists_bare_string :
    (checkToken (some "u1") 1000
      (RemoteCall.returns (some ⟨true, some ⟨some "abc", some 3600⟩⟩))
      ⟨none, false, false, none, ⟨none, none, none, none, none⟩⟩).storage.ebay_user_token
      = some (JsStr.plain "abc") := by decide

/-- C3: when the listings response fails with first error id 932 and the
refresh response does not pass the `refreshed?.success &&
refreshed.data?.access_token` guard, both token keys are removed,
`ebayToken` is dropped, `needsConnection` is raised and no error message
survives (it was cleared on entry and never set), for every prior state. -/
theorem fetchListings_refresh_failure_teardown (r : ListingsResp)
    (rr : Option RefreshResp) (now : Int) (st : HomeState)
    (h1 : r.success = false) (h2 : firstErrorIs932 r = true)
    (h3 : refreshedToken rr = none) :
    (fetchListings (FetchOutcome.returns r) (RefreshOutcome.returns rr) now st).storage.ebay_user_token = none ∧
    (fetchListings (FetchOutcome.returns r) (RefreshOutcome.returns rr) now st).storage.ebay_refresh_token = none ∧
    (fetchListings (FetchOutcome.returns r) (RefreshOutcome.returns rr) now st).ebayToken = none ∧
    (fetchListings (FetchOutcome.returns r) (RefreshOutcome.returns rr) now st).needsConnection = true ∧
    (fetchListings (FetchOutcome.returns r) (RefreshOutcome.returns rr) now st).listingsError = none := by
  refine ⟨?_, ?_, ?_, ?_, ?_⟩ <;> simp [fetchListings, h1, h2, h3, clearTokens]

/-- Witness for C3 (Scenario C) from a fully populated prior state. -/
theorem fetchListings_refresh_failure_teardown_witness :
    ((⟨false, some [⟨some 932⟩], none⟩ : ListingsResp).success = false) ∧
    (firstErrorIs932 ⟨false, some [⟨some 932⟩], none⟩ = true) ∧
    (refreshedToken (some ⟨false, none⟩) = none) ∧
    ((fetchListings (FetchOutcome.returns ⟨false, some [⟨some 932⟩], none⟩)
        (RefreshOutcome.returns (some ⟨false, none⟩)) 0
        ⟨some (JsStr.plain "x"), false, false, some "old",
          ⟨some (JsStr.plain "x"), some "rt", some "u", some "u", some "s"⟩⟩).storage.ebay_user_token = none ∧
     (fetchListings (FetchOutcome.returns ⟨false, some [⟨some 932⟩], none⟩)
        (RefreshOutcome.returns (some ⟨false, none⟩)) 0
        ⟨some (JsStr.plain "x"), false, false, some "old",
          ⟨some (JsStr.plain "x"), some "rt", some "u", some "u", some "s"⟩⟩).storage.ebay_refresh_token = none ∧
     (fetchListings (FetchOutcome.returns ⟨false, some [⟨some 932⟩], none⟩)
        (RefreshOutcome.returns (some ⟨false, none⟩)) 0
        ⟨some (JsStr.plain "x"), false, false, some "old",
          ⟨some (JsStr.plain "x"), some "rt", some "u", some "u", some "s"⟩⟩).ebayToken = none ∧
     (fetchListings (FetchOutcome.returns ⟨false, some [⟨some 932⟩], none⟩)
        (RefreshOutcome.returns (some ⟨false, none⟩)) 0
        ⟨some (JsStr.plain "x"), false, false, some "old",
          ⟨some (JsStr.plain "x"), some "rt", some "u", some "u", some "s"⟩⟩).needsConnection = true ∧
     (fetchListings (FetchOutcome.returns ⟨false, some [⟨some 932⟩], none⟩)
        (RefreshOutcome.returns (some ⟨false, none⟩)) 0
        ⟨some (JsStr.plain "x"), false, false, some "old",
          ⟨some (JsStr.plain "x"), some "rt", some "u", some "u", some "s"⟩⟩).listingsError = none) :=
  ⟨by decide, by decide, by decide,
   fetchListings_refresh_failure_teardown ⟨false, some [⟨some 932⟩], none⟩
     (some ⟨false, none⟩) 0
     ⟨some (JsStr.plain "x"), false, false, some "old",
       ⟨some (JsStr.plain "x"), some "rt", some "u", some "u", some "s"⟩⟩
     (by decide) (by decide) (by decide)⟩

/-- C4: when the listings call throws carrying transport status 401 (in
either of the two fields the catch block inspects), the end state matches
the coded refresh-failure teardown — both token keys removed, `ebayToken`
dropped, `needsConnection` raised — and `listingsError` is explicitly
cleared rather than set to a generic message. -/
theorem fetchListings_transport_401_teardown (rs es : Option Int)
    (msg : String) (refresh : RefreshOutcome) (now : Int) (st : HomeState)
    (h : rs = some 401 ∨ es = some 401) :
    (fetchListings (FetchOutcome.throws rs es msg) refresh now st).storage.ebay_user_token = none ∧
    (fetchListings (FetchOutcome.throws rs es msg) refresh now st).storage.ebay_refresh_token = none ∧
    (fetchListings (FetchOutcome.throws rs es msg) refresh now st).ebayToken = none ∧
    (fetchListings (FetchOutcome.throws rs es msg) refresh now st).needsConnection = true ∧
    (fetchListings (FetchOutcome.throws rs es msg) refresh now st).listingsError = none := by
  have h4 : is401 rs es = true := by
    cases h <;> simp [is401, *]
  refine ⟨?_, ?_, ?_, ?_, ?_⟩ <;> simp [fetchListings, fetchCatch, h4, clearTokens]

/-- Witness for C4 (Scenario D) from a fully populated prior state. -/
theorem fetchListings_transport_401_teardown_witness :
    ((some 401 : Option Int) = some 401 ∨ (none : Option Int) = some 401) ∧
    ((fetchListings (FetchOutcome.throws (some 401) none "Request failed")
        (RefreshOutcome.returns none) 0
        ⟨some (JsStr.plain "x"), false, false, some "old",
          ⟨some (JsStr.plain "x"), some "rt", some "u", some "u", some "s"⟩⟩).storage.ebay_user_token = none ∧
     (fetchListings (FetchOutcome.throws (some 401) none "Request failed")
        (RefreshOutcome.returns none) 0
        ⟨some (JsStr.plain "x"), false, false, some "old",
          ⟨some (JsStr.plain "x"), some "rt", some "u", some "u", some "s"⟩⟩).storage.ebay_refresh_token = none ∧
     (fetchListings (FetchOutcome.throws (some 401) none "Request failed")
        (RefreshOutcome.returns none) 0
        ⟨some (JsStr.plain "x"), false, false, some "old",
          ⟨some (JsStr.plain "x"), some "rt", some "u", some "u", some "s"⟩⟩).ebayToken = none ∧
     (fetchListings (FetchOutcome.throws (some 401) none "Request failed")
        (RefreshOutcome.returns none) 0
        ⟨some (JsStr.plain "x"), false, false, some "old",
          ⟨some (JsStr.plain "x"), some "rt", some "u", some "u", some "s"⟩⟩).needsConnection = true ∧
     (fetchListings (FetchOutcome.throws (some 401) none "Request failed")
        (RefreshOutcome.returns none) 0
        ⟨some (JsStr.plain "x"), false, false, some "old",
          ⟨some (JsStr.plain "x"), some "rt", some "u", some "u", some "s"⟩⟩).listingsError = none) :=
  ⟨Or.inl rfl,
   fetchListings_transport_401_teardown (some 401) none "Request failed"
     (RefreshOutcome.returns none) 0
     ⟨some (JsStr.plain "x"), false, false, some "old",
       ⟨some (JsStr.plain "x"), some "rt", some "u", some "u", some "s"⟩⟩
     (Or.inl rfl)⟩

/-- C2: starting from a state whose `ebayToken` is the current token, a
listings response failing with first error id 932 followed by a successful
refresh yielding a different non-empty token and a non-zero `expires_in`
persists the full new record with expiry `now + expires_in * 1000`, sets
`ebayToken` to the new token, and causes the effect to re-invoke the fetch
exactly once, with the new token attached (the trace of requests is the
original one plus one retry); a following successful response stops the
loop. fetchListings itself contains no recursive call: the retry happens
only through the token-change re-run modelled by runFetchLoop. The
current token must be truthy (non-empty), since the effect returns
without fetching on a falsy `ebayToken` (Home.jsx line 110). -/
theorem fetchListings_932_refresh_retry (t0 tok : String) (exp : Int)
    (e1 err2 : Option String) (errs2 : Option (List ErrEntry))
    (r2 : RefreshOutcome) (now : Int) (st : HomeState)
    (hTok : st.ebayToken = some (JsStr.plain t0)) (hT0 : t0 ≠ "")
    (hNew : tok ≠ t0) (hNe : tok ≠ "") (hExp : exp ≠ 0) :
    (runFetchLoop
      [(FetchOutcome.returns ⟨false, some [⟨some 932⟩], e1⟩,
        RefreshOutcome.returns (some ⟨true, some ⟨some tok, some exp⟩⟩)),
       (FetchOutcome.returns ⟨true, errs2, err2⟩, r2)] now st).2
      = [JsStr.plain t0, JsStr.plain tok] ∧
    (runFetchLoop
      [(FetchOutcome.returns ⟨false, some [⟨some 932⟩], e1⟩,
        RefreshOutcome.returns (some ⟨true, some ⟨some tok, some exp⟩⟩)),
       (FetchOutcome.returns ⟨true, errs2, err2⟩, r2)] now st).1.ebayToken
      = some (JsStr.plain tok) ∧
    (runFetchLoop
      [(FetchOutcome.returns ⟨false, some [⟨some 932⟩], e1⟩,
        RefreshOutcome.returns (some ⟨true, some ⟨some tok, some exp⟩⟩)),
       (FetchOutcome.returns ⟨true, errs2, err2⟩, r2)] now st).1.storage.ebay_user_token
      = some (JsStr.recordJson tok (now + exp * 1000)) := by
  refine ⟨?_, ?_, ?_⟩ <;>
    simp [runFetchLoop, fetchListings, refreshedToken, firstErrorIs932,
      orElse7200, jsStrTruthy, hTok, hT0, hNe, hExp, hNew]

/-- Witness for C2 at concrete tokens and a 3600-second refresh. -/
theorem fetchListings_932_refresh_retry_witness :
    ((⟨some (JsStr.plain "old"), false, false, none,
        ⟨none, none, none, none, none⟩⟩ : HomeState).ebayToken
      = some (JsStr.plain "old")) ∧
    (("old" : String) ≠ "") ∧
    (("new" : String) ≠ "old") ∧ (("new" : String) ≠ "") ∧ ((3600 : Int) ≠ 0) ∧
    ((runFetchLoop
        [(FetchOutcome.returns ⟨false, some [⟨some 932⟩], none⟩,
          RefreshOutcome.returns (some ⟨true, some ⟨some "new", some 3600⟩⟩)),
         (FetchOutcome.returns ⟨true, none, none⟩, RefreshOutcome.returns none)] 0
        ⟨some (JsStr.plain "old"), false, false, none,
          ⟨none, none, none, none, none⟩⟩).2
        = [JsStr.plain "old", JsStr.plain "new"] ∧
     (runFetchLoop
        [(FetchOutcome.returns ⟨false, some [⟨some 932⟩], none⟩,
          RefreshOutcome.returns (some ⟨true, some ⟨some "new", some 3600⟩⟩)),
         (FetchOutcome.returns ⟨true, none, none⟩, RefreshOutcome.returns none)] 0
        ⟨some (JsStr.plain "old"), false, false, none,
          ⟨none, none, none, none, none⟩⟩).1.ebayToken
        = some (JsStr.plain "new") ∧
     (runFetchLoop
        [(FetchOutcome.returns ⟨false, some [⟨some 932⟩], none⟩,
          RefreshOutcome.returns (some ⟨true, some ⟨some "new", some 3600⟩⟩)),
         (FetchOutcome.returns ⟨true, none, none⟩, RefreshOutcome.returns none)] 0
        ⟨some (JsStr.plain "old"), false, false, none,
          ⟨none, none, none, none, none⟩⟩).1.storage.ebay_user_token
        = some (JsStr.recordJson "new" (0 + 3600 * 1000))) :=
  ⟨by decide, by decide, by decide, by decide, by decide,
   fetchListings_932_refresh_retry "old" "new" 3600 none none none
     (RefreshOutcome.returns none) 0
     ⟨some (JsStr.plain "old"), false, false, none,
       ⟨none, none, none, none, none⟩⟩
     (by decide) (by decide) (by decide) (by decide) (by decide)⟩
